import Mathlib

/-!
Verification of the nextjs-audio-player front-end widget set.

The definitions below are a shallow embedding of the AudioPlayer component
(src/unnamed/part_000), the auth context (src/contexts/AuthContext.jsx) and
their collaborators.  JavaScript numbers that the code compares with `<` are
modelled as rationals (ℚ); integer-valued fields as ℤ/ℕ; nullable values as
Option.  The browser's native media element, an external collaborator, is
modelled by its standardised behaviour (the HTML seeking algorithm), clearly
marked where it appears.
-/

namespace AudioPlayerModel

/-! ## Progress records and the resume/start-over decision
    (part_000 lines 567-606 `checkResume`, lines 806-847 affordance rendering) -/

/-- The wire form of `is_finished`: the backend may send it as a boolean or as
a number (part_000 line 591: "Check is_finished (can be 1 or true)"). -/
inductive FinFlag where
  | b (v : Bool)
  | n (v : ℤ)
  deriving DecidableEq, Repr

/-- A fetched progress record (`data.progress` in `checkResume`): integer
`position` seconds, numeric `completion_percentage`, the dual-typed
`is_finished`, and the saved playback speed. -/
structure ProgressRecord where
  position : ℤ
  completion_percentage : ℚ
  is_finished : FinFlag
  playback_speed : ℚ
  deriving DecidableEq, Repr

/-- part_000 line 592: `data.progress.is_finished === 1 || data.progress.is_finished === true`. -/
def isFinishedTruthy : FinFlag → Bool
  | .b v => v
  | .n v => v == 1

/-- The component state set by `checkResume` (useState hooks, part_000
lines 85-89). -/
structure ResumeUI where
  resumeAvailable : Bool
  resumePosition : Option ℤ
  showStartOver : Bool
  completionPercentage : ℚ
  deriving DecidableEq, Repr

/-- Initial values of the hooks: `useState(false)`, `useState(null)`,
`useState(false)`, `useState(0)`. -/
def initResumeUI : ResumeUI := ⟨false, none, false, 0⟩

/-- The success path of `checkResume` (part_000 lines 577-597), run when the
GET of the progress record returned ok with a `progress` field.  `parseFloat`
of a numeric field is the field itself, and `typeof position === 'number'`
holds since `position : ℤ`.  Note `setResumePosition` is only called in the
available branch, so a previous value survives otherwise. -/
def checkResumeSuccess (r : ProgressRecord) (prev : ResumeUI) : ResumeUI :=
  let ra := decide (r.position > 0) && decide (r.completion_percentage < 100)
  { resumeAvailable := ra
    resumePosition := if ra then some r.position else prev.resumePosition
    showStartOver := isFinishedTruthy r.is_finished
    completionPercentage := r.completion_percentage }

/-- Render condition of the Resume button (part_000 line 807):
`!isPlaying && resumeAvailable && completionPercentage < 100 && !showStartOver`. -/
def resumeVisible (ui : ResumeUI) (isPlaying : Bool) : Bool :=
  !isPlaying && ui.resumeAvailable && decide (ui.completionPercentage < 100)
    && !ui.showStartOver

/-- Render condition of the Start-Over-Again button (part_000 line 833):
`!isPlaying && showStartOver`. -/
def startOverVisible (ui : ResumeUI) (isPlaying : Bool) : Bool :=
  !isPlaying && ui.showStartOver

/-- Render condition of the Restart Book button (part_000 line 817):
`resumeAvailable && resumePosition !== null && duration > 0 &&
resumePosition >= duration` — `duration` is the state mirrored from the
element's metadata.  Note the guard checks neither `isPlaying` nor
`showStartOver`.  Its click handler (lines 819-825) is identical to the
Start-Over-Again button's (lines 835-841): position 0, then play — it is a
start-over affordance. -/
def restartBookVisible (ui : ResumeUI) (duration : ℚ) : Bool :=
  ui.resumeAvailable && ui.resumePosition.isSome && decide (0 < duration)
    && (match ui.resumePosition with
        | some p => decide (duration ≤ (p : ℚ))
        | none => false)

/-- Which of the two affordances the rendered UI shows (`resume` carries the
displayed resume target, part_000 line 813). -/
inductive Affordance where
  | startOver
  | resume (target : Option ℤ)
  | neither
  | both
  deriving DecidableEq, Repr

/-- Which of the Resume and Start-Over-Again buttons (part_000 lines 807 and
833) is visible, computed from their render conditions.  The third button of
the affordance block, Restart Book (line 817), is accounted for separately
by `restartBookVisible` and `renderedAffordanceCount`. -/
def visibleAffordance (ui : ResumeUI) (isPlaying : Bool) : Affordance :=
  if startOverVisible ui isPlaying then
    if resumeVisible ui isPlaying then .both else .startOver
  else if resumeVisible ui isPlaying then .resume ui.resumePosition
  else .neither

/-- How many of the three affordance buttons of the rendering block
(part_000 lines 806-847) are visible at once. -/
def renderedAffordanceCount (ui : ResumeUI) (isPlaying : Bool) (duration : ℚ) : ℕ :=
  (if resumeVisible ui isPlaying then 1 else 0)
    + (if restartBookVisible ui duration then 1 else 0)
    + (if startOverVisible ui isPlaying then 1 else 0)

/-- The decision rule as the specification words it (§4.2): finished wins,
else resume on nonzero unfinished position, else neither.  Stated separately
from the code-derived definitions so the two can be compared. -/
def specAffordanceDecision (r : ProgressRecord) : Affordance :=
  if isFinishedTruthy r.is_finished then .startOver
  else if r.position > 0 ∧ r.completion_percentage < 100 then .resume (some r.position)
  else .neither

/-! ## Playback controller
    (part_000 lines 314-369 `handlePlay`, 371-392 `handlePause`,
     393-418 `handleSeek`, 420-437 skip handlers, 147-206 `updateProgress`) -/

/-- Model of the browser's native audio element, an external collaborator of
this component.  Only the fields the player reads/writes are kept. -/
structure AudioEl where
  currentTime : ℚ
  duration : ℚ
  deriving DecidableEq, Repr

/-- The HTML standard's seeking algorithm for assignments to
`HTMLMediaElement.currentTime` (external browser behaviour, not repository
code): a new playback position later than the end of the resource becomes the
end, one earlier than the earliest possible position (0) becomes 0. -/
def seekAlgorithm (t dur : ℚ) : ℚ :=
  if t > dur then dur else if t < 0 then 0 else t

/-- Assignment `audioRef.current.currentTime = t` lands on the position the
HTML seeking algorithm computes. -/
def AudioEl.setCurrentTime (a : AudioEl) (t : ℚ) : AudioEl :=
  { a with currentTime := seekAlgorithm t a.duration }

/-- The player component's state: the underlying element plus the React
useState hooks (part_000 lines 77-89) and the progress-interval bookkeeping
(`progressIntervalRef`, line 93).  `liveTimers` lists the interval ids
created by `setInterval` and not yet cleared by `clearInterval`; `nextTimer`
is the next id the browser would hand out (browsers return positive ids, so
ids start at 1 and the code's truthiness test on the ref is a `some` test). -/
structure PlayerState where
  el : AudioEl
  isPlaying : Bool
  error : Option String
  currentTime : ℚ
  duration : ℚ
  playbackRate : ℚ
  liveTimers : List ℕ
  timerRef : Option ℕ
  nextTimer : ℕ
  deriving DecidableEq, Repr

/-- Initial hook values: not playing, no error, time 0, rate 1, no interval. -/
def initPlayer : PlayerState :=
  { el := ⟨0, 0⟩, isPlaying := false, error := none, currentTime := 0
    duration := 0, playbackRate := 1, liveTimers := [], timerRef := none
    nextTimer := 1 }

/-- part_000 lines 359-363: the rejection of `audioRef.current.play()` is
mapped by `err.name` to one of three fixed user-facing messages. -/
def mapPlayError (name : String) : String :=
  if name = "NotAllowedError" then "Playback blocked by browser. Please click play again."
  else if name = "NotSupportedError" then "Audio format not supported by this browser."
  else "Failed to play audio. Please try again."

/-- `handlePlay` (part_000 lines 314-369), parametrised by the outcome of the
awaited `play()` call.  Success: `setIsPlaying(true)`, `setError(null)`, and
`progressIntervalRef.current = setInterval(...)` — one new interval, ref
overwritten.  Rejection: only `setError(mapPlayError name)`; `isPlaying` is
not touched and no interval is started. -/
def handlePlay (s : PlayerState) (res : Except String Unit) : PlayerState :=
  match res with
  | .ok _ =>
      { s with isPlaying := true, error := none
               liveTimers := s.nextTimer :: s.liveTimers
               timerRef := some s.nextTimer
               nextTimer := s.nextTimer + 1 }
  | .error name => { s with error := some (mapPlayError name) }

/-- `handlePause` (part_000 lines 371-392): `setIsPlaying(false)`, and
`clearInterval(progressIntervalRef.current)` when the ref holds an id (the
ref itself is not reset).  The final `updateProgress(..., 'paused')` push has
no state effect (see `updateProgress` below). -/
def handlePause (s : PlayerState) : PlayerState :=
  { s with isPlaying := false
           liveTimers := match s.timerRef with
             | some t => s.liveTimers.erase t
             | none => s.liveTimers }

/-- `handleSeek` (part_000 lines 393-418): assigns the raw target to the
element's `currentTime` (clamped by the element per `seekAlgorithm`) and
mirrors the raw target into the `currentTime` state hook.  The code itself
performs no clamping. -/
def handleSeek (s : PlayerState) (newTime : ℚ) : PlayerState :=
  { s with el := s.el.setCurrentTime newTime, currentTime := newTime }

/-- `handleSkipForward` (part_000 lines 420-428):
`handleSeek(Math.min(currentTime + 30, duration))`. -/
def handleSkipForward (s : PlayerState) : PlayerState :=
  handleSeek s (min (s.currentTime + 30) s.duration)

/-- `handleSkipBackward` (part_000 lines 430-437):
`handleSeek(Math.max(currentTime - 30, 0))`. -/
def handleSkipBackward (s : PlayerState) : PlayerState :=
  handleSeek s (max (s.currentTime - 30) 0)

/-! ## Object-URL and timer lifecycle across mount/unmount
    (part_000 lines 116-143 source-init effect, 656-665 cleanup effect) -/

/-- Handle bookkeeping for the resources the component can leak: the
progress interval and the object URLs created for authenticated playback. -/
structure Resources where
  timerLive : Bool
  createdURLs : ℕ
  revokedURLs : ℕ
  deriving DecidableEq, Repr

def initResources : Resources := ⟨false, 0, 0⟩

/-- Source-init effect (part_000 lines 116-137): with an auth token and a
successful fetch, the response blob is materialised and
`URL.createObjectURL(blob)` is called once (line 128). -/
def mountWithAuth (r : Resources) : Resources :=
  { r with createdURLs := r.createdURLs + 1 }

/-- A successful `handlePlay` starts the progress interval (line 341). -/
def beginPlaying (r : Resources) : Resources := { r with timerLive := true }

/-- Cleanup effect run on unmount (part_000 lines 657-665): `clearInterval`
on the progress interval when one is set.  The effect body contains no
`URL.revokeObjectURL` call, and none exists anywhere on the playback path
(the only revocations in the repository are for the separate download URL,
line 518, and a config helper), so `revokedURLs` is unchanged. -/
def unmountCleanup (r : Resources) : Resources := { r with timerLive := false }

/-- One full lifecycle: authenticated mount, playback start, unmount. -/
def mountPlayUnmount : Resources → Resources :=
  unmountCleanup ∘ beginPlaying ∘ mountWithAuth

/-! ## Progress pushes (`updateProgress`, part_000 lines 147-206) -/

/-- Outcome of the POST to the progress endpoint. -/
inductive FetchOutcome where
  | ok2xx
  | httpError (status : ℕ)
  | networkError (name msg : String)
  deriving DecidableEq, Repr

/-- The JSON body `updateProgress` sends (part_000 lines 158-162):
`{position: Math.floor(position), status, playback_speed: playbackRate}`. -/
structure PushRequest where
  position : ℤ
  status : String
  playback_speed : ℚ
  deriving DecidableEq, Repr

/-- `updateProgress` (part_000 lines 147-206).  The progress URL is a
non-empty template string, so the early-return guard reduces to the token
test.  Every fetch outcome is handled inside the function's try/catch: a
non-ok response only logs the error text, a rejected fetch is caught and
logged, so the function always returns normally (`.ok`) with the component
state untouched, having issued at most one request and never a retry. -/
def updateProgress (authToken : Option String) (s : PlayerState) (position : ℚ)
    (status : String) (outcome : FetchOutcome) :
    Except String (PlayerState × List PushRequest) :=
  match authToken with
  | none => .ok (s, [])
  | some _ =>
      let body : PushRequest := ⟨Int.floor position, status, s.playbackRate⟩
      match outcome with
      | .ok2xx => .ok (s, [body])
      | .httpError _ => .ok (s, [body])
      | .networkError _ _ => .ok (s, [body])

/-! ## Resume action (part_000 lines 608-645 `handleResume`) -/

/-- Observable events of the resume action, in program order. -/
inductive ResumeEv where
  | fetchAudio (url : String)
  | setSrcObject
  | setSrc (url : String)
  | metadataLoaded
  | assignPosition (p : ℤ)
  | playStart
  deriving DecidableEq, Repr

/-- The streaming URL `handleResume` builds (part_000 line 609): it always
carries the `resume=true` query flag. -/
def resumeStreamingUrl (apiBaseUrl : String) : String :=
  apiBaseUrl ++ "/audioStreaming/books/2/audio?resume=true"

/-- The `onloadedmetadata` callback `handleResume` installs (part_000 lines
624-629 and 638-643): `if (resumePosition)` — truthy, so a missing or zero
position skips the assignment — set `currentTime := resumePosition`, then
call `play()`. -/
def resumeMetadataCallback (resumePosition : Option ℤ) : List ResumeEv :=
  match resumePosition with
  | some p => if p = 0 then [.playStart] else [.assignPosition p, .playStart]
  | none => [.playStart]

/-- Event trace of `handleResume` (part_000 lines 608-645), parametrised by
the fetch outcome and by whether the element's `loadedmetadata` event fires
(the installed callback runs only then, after the trace's
`metadataLoaded`).  Authenticated path: fetch the resume-flagged URL, set
the source to the blob's object URL, install the callback; a failed fetch
only sets an error.  Unauthenticated path: set the source to the
resume-flagged URL directly and install the same callback. -/
def handleResume (apiBaseUrl : String) (authToken : Option String)
    (resumePosition : Option ℤ) (fetchOk metadataFires : Bool) : List ResumeEv :=
  let after : List ResumeEv :=
    if metadataFires then .metadataLoaded :: resumeMetadataCallback resumePosition
    else []
  match authToken with
  | some _ =>
      if fetchOk then
        .fetchAudio (resumeStreamingUrl apiBaseUrl) :: .setSrcObject :: after
      else [.fetchAudio (resumeStreamingUrl apiBaseUrl)]
  | none => .setSrc (resumeStreamingUrl apiBaseUrl) :: after

/-! ## Auth context (src/contexts/AuthContext.jsx) -/

/-- The auth provider's state: the two useState hooks, the persisted token
(`localStorage` under `config.auth.tokenKey = 'authToken'`, config.js line
13), and the loading flag. -/
structure AuthState where
  authToken : Option String
  user : Option String
  storedToken : Option String
  isLoading : Bool
  deriving DecidableEq, Repr

/-- Outcome of the `GET /user/me` validation request. -/
inductive ValidationOutcome where
  | response (status : ℕ) (body : String)
  | networkError (msg : String)
  deriving DecidableEq, Repr

/-- `response.ok`: the status is in the 2xx range; a rejected fetch has no
ok response. -/
def outcomeOk : ValidationOutcome → Bool
  | .response status _ => decide (200 ≤ status ∧ status < 300)
  | .networkError _ => false

/-- `logout` (AuthContext.jsx lines 67-72): null the in-memory token and
user, remove the stored token. -/
def authLogout (s : AuthState) : AuthState :=
  { s with authToken := none, user := none, storedToken := none }

/-- `validateToken` (AuthContext.jsx lines 32-58): a 2xx response sets the
user; any other response and any thrown fetch error call `logout()`; the
`finally` block always clears `isLoading`. -/
def validateToken (s : AuthState) (o : ValidationOutcome) : AuthState :=
  let s' := match o with
    | .response status body =>
        if 200 ≤ status ∧ status < 300 then { s with user := some body }
        else authLogout s
    | .networkError _ => authLogout s
  { s' with isLoading := false }

/-- What `AppContent` (part_000 lines 877-897) renders. -/
inductive AppView where
  | loading
  | login
  | player
  deriving DecidableEq, Repr

/-- `AppContent`: spinner while `isLoading`, the login form when
`isAuthenticated` (`!!authToken`) is false, the player otherwise. -/
def appView (s : AuthState) : AppView :=
  if s.isLoading then .loading
  else if s.authToken.isSome then .player
  else .login

end AudioPlayerModel

namespace AudioPlayerModel

/-- Between the Resume and Start-Over-Again buttons alone, the rendering
follows the spec's priority rule (helper for the amended C1). -/
theorem two_button_priority (r : ProgressRecord) (prev : ResumeUI) :
    visibleAffordance (checkResumeSuccess r prev) false = specAffordanceDecision r := by
  unfold visibleAffordance specAffordanceDecision checkResumeSuccess
    resumeVisible startOverVisible
  by_cases hf : isFinishedTruthy r.is_finished
  · simp [hf]
  · by_cases hp : r.position > 0
    · by_cases hc : r.completion_percentage < 100
      · simp [hf, hp, hc]
      · simp [hf, hp, hc]
    · simp [hf, hp]

/-- Counterexample to C1: for the fetched record (position 400, completion
50, not finished) with element duration 300, the claim's rule says Resume
only, yet the code renders two affordances at once — the Resume button and
the Restart Book button, whose click handler is the same start-over action
(position 0, then play) as Start-Over-Again's. -/
theorem two_affordances_counterexample :
    specAffordanceDecision ⟨400, 50, .b false, 1⟩ = .resume (some 400)
    ∧ renderedAffordanceCount
        (checkResumeSuccess ⟨400, 50, .b false, 1⟩ initResumeUI) false 300 = 2
    ∧ resumeVisible (checkResumeSuccess ⟨400, 50, .b false, 1⟩ initResumeUI)
        false = true
    ∧ restartBookVisible (checkResumeSuccess ⟨400, 50, .b false, 1⟩ initResumeUI)
        300 = true := by
  decide

/-- C1 amended: between the Resume and Start-Over-Again buttons, at most one
is visible and the strict priority holds — finished (boolean true or numeric
1) shows Start-Over-Again only; else a positive position with completion
below 100 shows Resume, carrying the record's position; else neither.
However the third button of the affordance block, Restart Book — itself a
start-over affordance — is visible exactly when the record has a positive
position, completion below 100, and the element duration `d` satisfies
`0 < d ≤ position`; in that case (the record being unfinished) it renders
alongside Resume, so two affordances can be visible at once. -/
theorem affordance_priority_and_restart_book (r : ProgressRecord)
    (prev : ResumeUI) (duration : ℚ) :
    visibleAffordance (checkResumeSuccess r prev) false = specAffordanceDecision r
    ∧ restartBookVisible (checkResumeSuccess r prev) duration
        = (decide (r.position > 0) && decide (r.completion_percentage < 100)
           && decide (0 < duration) && decide (duration ≤ (r.position : ℚ))) := by
  refine ⟨two_button_priority r prev, ?_⟩
  simp only [restartBookVisible, checkResumeSuccess]
  by_cases hp : r.position > 0
  · by_cases hc : r.completion_percentage < 100
    · simp [hp, hc]
    · simp [hp, hc]
  · simp [hp]

/-- For a nonnegative duration, the HTML seeking algorithm is exactly the
clamp `min (max t 0) dur`. -/
theorem seekAlgorithm_eq_clamp (t dur : ℚ) (hd : 0 ≤ dur) :
    seekAlgorithm t dur = min (max t 0) dur := by
  unfold seekAlgorithm
  split_ifs with h1 h2
  · rw [max_eq_left (by linarith), min_eq_right (by linarith)]
  · rw [max_eq_right (by linarith), min_eq_left hd]
  · rw [max_eq_left (by linarith), min_eq_left (by linarith)]

/-- After `handleSeek`, the element's position is the seeking algorithm's
result for the raw target. -/
theorem handleSeek_el_currentTime (s : PlayerState) (t : ℚ) :
    (handleSeek s t).el.currentTime = seekAlgorithm t s.el.duration := rfl

/-- C2: for every caller-provided seek target `t`, the final playback
position on the media element equals `min (max t 0) duration` — a target
above the duration is clamped to the duration, one below 0 to 0.  The clamp
is performed by the native element's seeking algorithm; `handleSeek` passes
the raw target through. -/
theorem seek_clamps (s : PlayerState) (t : ℚ) (hd : 0 ≤ s.el.duration) :
    (handleSeek s t).el.currentTime = min (max t 0) s.el.duration := by
  rw [handleSeek_el_currentTime, seekAlgorithm_eq_clamp t s.el.duration hd]

/-- Witness for C2 at a concrete state: duration 100, target 250 lands on 100. -/
theorem seek_clamps_witness :
    (handleSeek { initPlayer with el := ⟨0, 100⟩ } 250).el.currentTime
      = min (max (250 : ℚ) 0) (100 : ℚ) :=
  seek_clamps { initPlayer with el := ⟨0, 100⟩ } 250 (by norm_num)

/-- C7: from any position `p` with `0 ≤ p ≤ duration` (and the duration
state in sync with the element, as `handleLoadedMetadata` establishes),
skip-forward seeks to `min (p + 30) duration`, skip-backward to
`max (p - 30) 0`, and both land inside `[0, duration]`. -/
theorem skip_stays_in_range (s : PlayerState)
    (h0 : 0 ≤ s.currentTime) (h1 : s.currentTime ≤ s.duration)
    (hsync : s.el.duration = s.duration) :
    ((handleSkipForward s).el.currentTime = min (s.currentTime + 30) s.duration
      ∧ 0 ≤ (handleSkipForward s).el.currentTime
      ∧ (handleSkipForward s).el.currentTime ≤ s.duration)
    ∧ ((handleSkipBackward s).el.currentTime = max (s.currentTime - 30) 0
      ∧ 0 ≤ (handleSkipBackward s).el.currentTime
      ∧ (handleSkipBackward s).el.currentTime ≤ s.duration) := by
  have hd : 0 ≤ s.el.duration := by rw [hsync]; linarith
  have hf := (handleSeek_el_currentTime s (min (s.currentTime + 30) s.duration)).trans
    (seekAlgorithm_eq_clamp _ _ hd)
  have hb := (handleSeek_el_currentTime s (max (s.currentTime - 30) 0)).trans
    (seekAlgorithm_eq_clamp _ _ hd)
  unfold handleSkipForward handleSkipBackward
  rw [hf, hb, hsync]
  have keyf : min (max (min (s.currentTime + 30) s.duration) 0) s.duration
      = min (s.currentTime + 30) s.duration := by
    rw [max_eq_left (le_min (by linarith) (by linarith)),
      min_eq_left (min_le_right _ _)]
  have keyb : min (max (max (s.currentTime - 30) 0) 0) s.duration
      = max (s.currentTime - 30) 0 := by
    rw [max_eq_left (le_max_right _ _),
      min_eq_left (max_le (by linarith) (by linarith))]
  rw [keyf, keyb]
  exact ⟨⟨rfl, le_min (by linarith) (by linarith), min_le_right _ _⟩,
    rfl, le_max_right _ _, max_le (by linarith) (by linarith)⟩

/-- A concrete mid-playback state used by witnesses: position 50 of 100. -/
def midPlayer : PlayerState :=
  { initPlayer with el := ⟨50, 100⟩, currentTime := 50, duration := 100 }

/-- Witness for C7 at `midPlayer`. -/
theorem skip_stays_in_range_witness :
    ((handleSkipForward midPlayer).el.currentTime
        = min (midPlayer.currentTime + 30) midPlayer.duration
      ∧ 0 ≤ (handleSkipForward midPlayer).el.currentTime
      ∧ (handleSkipForward midPlayer).el.currentTime ≤ midPlayer.duration)
    ∧ ((handleSkipBackward midPlayer).el.currentTime
        = max (midPlayer.currentTime - 30) 0
      ∧ 0 ≤ (handleSkipBackward midPlayer).el.currentTime
      ∧ (handleSkipBackward midPlayer).el.currentTime ≤ midPlayer.duration) :=
  skip_stays_in_range midPlayer (by norm_num [midPlayer, initPlayer])
    (by norm_num [midPlayer, initPlayer]) rfl

/-- `handlePlay` with a resolving `play()` call. -/
def playOk (s : PlayerState) : PlayerState := handlePlay s (.ok ())

/-- One play/pause cycle of the alternating button (part_000 line 730:
the single toggle button calls `handlePause` exactly when playing). -/
def altCycle (s : PlayerState) : PlayerState := handlePause (playOk s)

theorem altCycle_liveTimers (s : PlayerState) :
    (altCycle s).liveTimers = s.liveTimers := by
  simp [altCycle, playOk, handlePlay, handlePause]

theorem altCycle_liveTimers_nil (n : ℕ) :
    ((altCycle^[n]) initPlayer).liveTimers = [] := by
  induction n with
  | zero => rfl
  | succ n ih => rw [Function.iterate_succ_apply', altCycle_liveTimers, ih]

/-- C4: across any number of alternating play/pause cycles, each successful
`play()` starts exactly one live interval, and the following `pause()`
clears it, so at every point of the alternation at most one progress timer
is live and none accumulate. -/
theorem play_pause_timer_discipline (n : ℕ) :
    ((altCycle^[n]) initPlayer).liveTimers.length = 0
    ∧ (playOk ((altCycle^[n]) initPlayer)).liveTimers.length = 1
    ∧ (handlePause (playOk ((altCycle^[n]) initPlayer))).liveTimers.length = 0 := by
  have h := altCycle_liveTimers_nil n
  refine ⟨by rw [h]; rfl, ?_, ?_⟩
  · simp [playOk, handlePlay, h]
  · have := altCycle_liveTimers ((altCycle^[n]) initPlayer)
    rw [show handlePause (playOk ((altCycle^[n]) initPlayer))
        = altCycle ((altCycle^[n]) initPlayer) from rfl, this, h]
    rfl

/-- C5: a rejected `play()` leaves `isPlaying` false, starts no progress
timer, and surfaces exactly one of the three fixed user-facing messages,
with `NotAllowedError` mapped to the blocked-by-browser message and
`NotSupportedError` to the format message. -/
theorem play_rejection_maps_error (s : PlayerState) (name : String)
    (hnp : s.isPlaying = false) :
    (handlePlay s (.error name)).isPlaying = false
    ∧ (handlePlay s (.error name)).liveTimers = s.liveTimers
    ∧ (handlePlay s (.error name)).timerRef = s.timerRef
    ∧ (handlePlay s (.error name)).error = some (mapPlayError name)
    ∧ (mapPlayError name = "Playback blocked by browser. Please click play again."
       ∨ mapPlayError name = "Audio format not supported by this browser."
       ∨ mapPlayError name = "Failed to play audio. Please try again.")
    ∧ mapPlayError "NotAllowedError"
        = "Playback blocked by browser. Please click play again."
    ∧ mapPlayError "NotSupportedError"
        = "Audio format not supported by this browser." := by
  refine ⟨hnp, rfl, rfl, rfl, ?_, by decide, by decide⟩
  unfold mapPlayError
  split_ifs <;> simp

/-- Witness for C5: `initPlayer` with a `NotAllowedError` rejection. -/
theorem play_rejection_maps_error_witness :
    initPlayer.isPlaying = false
    ∧ ((handlePlay initPlayer (.error "NotAllowedError")).isPlaying = false
      ∧ (handlePlay initPlayer (.error "NotAllowedError")).liveTimers
          = initPlayer.liveTimers
      ∧ (handlePlay initPlayer (.error "NotAllowedError")).timerRef
          = initPlayer.timerRef
      ∧ (handlePlay initPlayer (.error "NotAllowedError")).error
          = some (mapPlayError "NotAllowedError")
      ∧ (mapPlayError "NotAllowedError"
            = "Playback blocked by browser. Please click play again."
         ∨ mapPlayError "NotAllowedError"
            = "Audio format not supported by this browser."
         ∨ mapPlayError "NotAllowedError"
            = "Failed to play audio. Please try again.")
      ∧ mapPlayError "NotAllowedError"
          = "Playback blocked by browser. Please click play again."
      ∧ mapPlayError "NotSupportedError"
          = "Audio format not supported by this browser.") :=
  ⟨rfl, play_rejection_maps_error initPlayer "NotAllowedError" rfl⟩

/-- C6: a progress push whose request fails (non-2xx response or rejected
fetch) returns normally — never an exception — with the player state
returned exactly as it was (same `isPlaying`, `currentTime`, `error`), and
exactly one request was issued, so no retry happens. -/
theorem failed_push_is_silent (tok : String) (s : PlayerState) (pos : ℚ)
    (st : String) (o : FetchOutcome) (hfail : o ≠ FetchOutcome.ok2xx) :
    updateProgress (some tok) s pos st o
      = .ok (s, [⟨Int.floor pos, st, s.playbackRate⟩]) := by
  cases o with
  | ok2xx => exact absurd rfl hfail
  | httpError _ => rfl
  | networkError _ _ => rfl

/-- Witness for C6: a 500 response on a push at position 45.5. -/
theorem failed_push_is_silent_witness :
    FetchOutcome.httpError 500 ≠ FetchOutcome.ok2xx
    ∧ updateProgress (some "tok") midPlayer (91/2) "playing"
        (FetchOutcome.httpError 500)
      = .ok (midPlayer, [⟨Int.floor ((91 : ℚ)/2), "playing", midPlayer.playbackRate⟩]) :=
  ⟨by decide, failed_push_is_silent "tok" midPlayer (91/2) "playing"
    (FetchOutcome.httpError 500) (by decide)⟩

/-- C10: a progress push with no auth token returns early: no request is
issued, nothing is thrown, and the player state is returned untouched. -/
theorem push_without_token_is_noop (s : PlayerState) (pos : ℚ) (st : String)
    (o : FetchOutcome) : updateProgress none s pos st o = .ok (s, []) := rfl

/-- Counterexample to C3: after a single authenticated
mount-play-unmount cycle, one object URL was created and zero revoke calls
were made — refuting "exactly one revoke call per created URL". -/
theorem unmount_revoke_counterexample :
    ¬ ((mountPlayUnmount initResources).revokedURLs
        = (mountPlayUnmount initResources).createdURLs) := by
  decide

/-- C3 amended: on every unmount path the cleanup effect stops the progress
timer, but the object URL created for authenticated playback is never
revoked: across `n` mount/play/unmount cycles, `n` URLs have been created
and zero revoked — the handles leak. -/
theorem unmount_stops_timer_but_leaks_urls (n : ℕ) :
    ((mountPlayUnmount^[n]) initResources).timerLive = false
    ∧ ((mountPlayUnmount^[n]) initResources).createdURLs = n
    ∧ ((mountPlayUnmount^[n]) initResources).revokedURLs = 0 := by
  induction n with
  | zero => exact ⟨rfl, rfl, rfl⟩
  | succ n ih =>
    rw [Function.iterate_succ_apply']
    refine ⟨rfl, ?_, ?_⟩
    · show ((mountPlayUnmount^[n]) initResources).createdURLs + 1 = n + 1
      rw [ih.2.1]
    · show ((mountPlayUnmount^[n]) initResources).revokedURLs = 0
      exact ih.2.2

/-- C8: whenever the resume action assigns a playback position, the
metadata-loaded signal has already fired and the play call comes after the
assignment (witnessed by the ordered sublist), the assigned value is the
previously fetched resume position (nonzero, per the truthiness guard), and
every source resolution the action performs uses the resume-flagged
streaming URL. -/
theorem resume_defers_position_until_metadata (api : String)
    (tok : Option String) (rp : Option ℤ) (fetchOk metadataFires : Bool)
    (p : ℤ)
    (hmem : ResumeEv.assignPosition p
      ∈ handleResume api tok rp fetchOk metadataFires) :
    rp = some p ∧ p ≠ 0
    ∧ [ResumeEv.metadataLoaded, ResumeEv.assignPosition p,
        ResumeEv.playStart].Sublist (handleResume api tok rp fetchOk metadataFires)
    ∧ (∀ u, ResumeEv.fetchAudio u ∈ handleResume api tok rp fetchOk metadataFires
        → u = resumeStreamingUrl api)
    ∧ (∀ u, ResumeEv.setSrc u ∈ handleResume api tok rp fetchOk metadataFires
        → u = resumeStreamingUrl api) := by
  cases tok with
  | some t =>
    cases fetchOk with
    | false =>
      simp [handleResume] at hmem
    | true =>
      cases metadataFires with
      | false => simp [handleResume] at hmem
      | true =>
        cases rp with
        | none => simp [handleResume, resumeMetadataCallback] at hmem
        | some q =>
          by_cases hq : q = 0
          · simp [handleResume, resumeMetadataCallback, hq] at hmem
          · have htrace : handleResume api (some t) (some q) true true
                = [ResumeEv.fetchAudio (resumeStreamingUrl api),
                   ResumeEv.setSrcObject, ResumeEv.metadataLoaded,
                   ResumeEv.assignPosition q, ResumeEv.playStart] := by
              simp [handleResume, resumeMetadataCallback, hq]
            rw [htrace] at hmem ⊢
            have hpq : p = q := by simpa using hmem
            subst hpq
            refine ⟨rfl, hq, ?_, ?_, ?_⟩
            · exact ((List.Sublist.refl _).cons ResumeEv.setSrcObject).cons
                (ResumeEv.fetchAudio (resumeStreamingUrl api))
            · intro u hu
              simpa using hu
            · intro u hu
              simp at hu
  | none =>
    cases metadataFires with
    | false => simp [handleResume] at hmem
    | true =>
      cases rp with
      | none => simp [handleResume, resumeMetadataCallback] at hmem
      | some q =>
        by_cases hq : q = 0
        · simp [handleResume, resumeMetadataCallback, hq] at hmem
        · have htrace : handleResume api none (some q) fetchOk true
              = [ResumeEv.setSrc (resumeStreamingUrl api),
                 ResumeEv.metadataLoaded, ResumeEv.assignPosition q,
                 ResumeEv.playStart] := by
            simp [handleResume, resumeMetadataCallback, hq]
          rw [htrace] at hmem ⊢
          have hpq : p = q := by simpa using hmem
          subst hpq
          refine ⟨rfl, hq, ?_, ?_, ?_⟩
          · exact (List.Sublist.refl _).cons
              (ResumeEv.setSrc (resumeStreamingUrl api))
          · intro u hu
            simp at hu
          · intro u hu
            simpa using hu

/-- Witness for C8: authenticated resume at saved position 120 with a
successful fetch and metadata firing. -/
theorem resume_defers_position_witness :
    (some 120 : Option ℤ) = some 120 ∧ (120 : ℤ) ≠ 0
    ∧ [ResumeEv.metadataLoaded, ResumeEv.assignPosition 120,
        ResumeEv.playStart].Sublist
        (handleResume "http://localhost:10000" (some "tok") (some 120) true true)
    ∧ (∀ u, ResumeEv.fetchAudio u
        ∈ handleResume "http://localhost:10000" (some "tok") (some 120) true true
        → u = resumeStreamingUrl "http://localhost:10000")
    ∧ (∀ u, ResumeEv.setSrc u
        ∈ handleResume "http://localhost:10000" (some "tok") (some 120) true true
        → u = resumeStreamingUrl "http://localhost:10000") :=
  resume_defers_position_until_metadata "http://localhost:10000" (some "tok")
    (some 120) true true 120
    (by simp [handleResume, resumeMetadataCallback])

/-- C9: every validation outcome that is not a 2xx response — any other
status and any network failure — forces the implicit logout: the in-memory
token and user become null, the stored token is removed, and the app
renders the login view. -/
theorem failed_validation_forces_logout (s : AuthState) (o : ValidationOutcome)
    (hfail : outcomeOk o = false) :
    (validateToken s o).authToken = none
    ∧ (validateToken s o).user = none
    ∧ (validateToken s o).storedToken = none
    ∧ appView (validateToken s o) = .login := by
  cases o with
  | response status body =>
    have h : ¬ (200 ≤ status ∧ status < 300) := by
      simpa [outcomeOk] using hfail
    simp [validateToken, authLogout, appView, if_neg h]
  | networkError msg =>
    simp [validateToken, authLogout, appView]

/-- Witness for C9: a 401 on `GET /user/me` from a logged-in state. -/
theorem failed_validation_forces_logout_witness :
    outcomeOk (ValidationOutcome.response 401 "Unauthorized") = false
    ∧ ((validateToken ⟨some "tok", some "alice", some "tok", true⟩
          (ValidationOutcome.response 401 "Unauthorized")).authToken = none
      ∧ (validateToken ⟨some "tok", some "alice", some "tok", true⟩
          (ValidationOutcome.response 401 "Unauthorized")).user = none
      ∧ (validateToken ⟨some "tok", some "alice", some "tok", true⟩
          (ValidationOutcome.response 401 "Unauthorized")).storedToken = none
      ∧ appView (validateToken ⟨some "tok", some "alice", some "tok", true⟩
          (ValidationOutcome.response 401 "Unauthorized")) = .login) :=
  ⟨by decide, failed_validation_forces_logout
    ⟨some "tok", some "alice", some "tok", true⟩
    (ValidationOutcome.response 401 "Unauthorized") (by decide)⟩

end AudioPlayerModel
